import Mathlib

/-!
Verification of the sidecar-tagging tool `tag_media.py`.

The script scans video files, classifies them against a language profile by
substring matching over audio-stream titles, the filename and the parent
folder name, and idempotently inserts `<tag>` children into a `movie.nfo`
XML sidecar.  We embed the element tree, the on-disk sidecar state, the
POSIX path helpers the script uses (`os.path.basename`, `os.path.dirname`,
`os.path.join`), the ffprobe wrapper, the updater `update_nfo` and the
per-file driver `process_video_file`, and prove the specified properties.
-/

namespace TagMedia

/-- An XML element as used by `xml.etree.ElementTree`: a tag name, optional
text, attributes, and a list of child elements.  Iterating over an element
(`for child in root`) yields `children`. -/
structure Elem where
  tag : String
  text : Option String
  attrib : List (String × String)
  children : List Elem
deriving Repr

/-- The on-disk state of the sidecar file at a given path: the file may be
absent, present but not well-formed XML (`ET.parse` raises `ParseError`),
or present and parsed to a root element. -/
inductive SidecarContent where
  | absent : SidecarContent
  | unparseable : SidecarContent
  | wellFormed : Elem → SidecarContent
deriving Repr

/-- One audio stream record returned by ffprobe's JSON output: an optional
probe-assigned index and, when the stream has a `tags.title` entry, its
title string (`tags_title = none` models a stream with no title tag). -/
structure Stream where
  index : Option Int
  tags_title : Option String
deriving Repr

/-- `title` as computed at the top of the stream loop in
`process_video_file`: the stream's title tag if present, else `""`. -/
def streamTitle (s : Stream) : String :=
  match s.tags_title with
  | some t => t
  | none => ""

/-- A language profile from `LANGUAGE_CONFIG`: display name, substring
patterns used for matching, and the tag strings inserted on a match. -/
structure LanguageProfile where
  readable_name : String
  search_patterns : List String
  tags_to_add : List String
deriving Repr

/-- The `'de'` entry of `LANGUAGE_CONFIG`. -/
def deProfile : LanguageProfile :=
  { readable_name := "German"
  , search_patterns := ["German", "Deutsch", "DE", "De "]
  , tags_to_add := ["German", "Deutsch"] }

/-- `LANGUAGE_CONFIG`: the static mapping from language key to profile.
The script ships with the single key `'de'`. -/
def LANGUAGE_CONFIG : List (String × LanguageProfile) :=
  [("de", deProfile)]

/-- Does `pat` occur at the start of `hay`?  (helper for the substring
test below). -/
def isPrefList : List Char → List Char → Bool
  | [], _ => true
  | _ :: _, [] => false
  | a :: as, b :: bs => a == b && isPrefList as bs

/-- Does `pat` occur somewhere inside `hay` (as a contiguous run)? -/
def hasSubList (pat : List Char) : List Char → Bool
  | [] => isPrefList pat []
  | c :: rest => isPrefList pat (c :: rest) || hasSubList pat rest

/-- Python's `pat in hay` on strings: case-sensitive exact substring
containment. -/
def containsSub (hay pat : String) : Bool :=
  hasSubList pat.toList hay.toList

/-- `os.path.basename` on POSIX: everything after the last `'/'` (the whole
string if there is no `'/'`). -/
def basename (p : String) : String :=
  String.mk ((p.toList.reverse.takeWhile (fun c => !(c == '/'))).reverse)

/-- `os.path.dirname` on POSIX: the part up to the last `'/'`, with trailing
slashes stripped unless the head consists only of slashes. -/
def dirname (p : String) : String :=
  let head := (p.toList.reverse.dropWhile (fun c => !(c == '/'))).reverse
  if head.isEmpty then ""
  else if head.all (fun c => c == '/') then String.mk head
  else String.mk ((head.reverse.dropWhile (fun c => c == '/')).reverse)

/-- `os.path.join a b` on POSIX for two components. -/
def joinPath (a b : String) : String :=
  if b.toList.head? == some '/' then b
  else if a == "" || a.toList.getLast? == some '/' then a ++ b
  else a ++ "/" ++ b

/-- Diagnostics printed to stderr by `ffprobe_audio_tracks`. -/
inductive StderrMsg where
  | ffprobeNotFound : StderrMsg
  | ffprobeError : String → StderrMsg
  | ffprobeUnparseable : String → StderrMsg
deriving Repr

/-- The possible outcomes of the external ffprobe invocation plus JSON
decoding, as distinguished by the `try/except` arms of
`ffprobe_audio_tracks`: the executable missing (`FileNotFoundError`),
a non-zero exit (`CalledProcessError`), output that `json.loads` rejects
(`JSONDecodeError`), or parsed output whose `streams` entry is the given
list (`data.get("streams", [])`, so missing key is the empty list). -/
inductive ProbeOutcome where
  | toolMissing : ProbeOutcome
  | nonZeroExit : ProbeOutcome
  | badOutput : ProbeOutcome
  | parsed : List Stream → ProbeOutcome
deriving Repr

/-- The three failure arms of the `try/except`. -/
def ProbeOutcome.isFailure : ProbeOutcome → Bool
  | .parsed _ => false
  | _ => true

/-- `ffprobe_audio_tracks`: returns the stream list together with the
diagnostics written to stderr.  Every `except` arm returns `[]` after
printing one diagnostic; no exception escapes to the caller. -/
def ffprobe_audio_tracks (outcome : ProbeOutcome) (filepath : String) :
    List Stream × List StderrMsg :=
  match outcome with
  | .parsed streams => (streams, [])
  | .toolMissing => ([], [StderrMsg.ffprobeNotFound])
  | .nonZeroExit => ([], [StderrMsg.ffprobeError filepath])
  | .badOutput => ([], [StderrMsg.ffprobeUnparseable filepath])

/-- Messages printed by `update_nfo` (color codes elided). -/
inductive Msg where
  | tagAlreadyExists : String → String → Msg
  | wouldUpdate : String → String → Msg
  | updated : String → String → Msg
deriving Repr

/-- The result of one `update_nfo` call: the returned boolean, the on-disk
sidecar state after the call, the in-memory document at return, and the
console messages emitted. -/
structure UpdateResult where
  changed : Bool
  disk : SidecarContent
  doc : Elem
  msgs : List Msg
deriving Repr

/-- The load phase of `update_nfo`: an existing well-formed file yields its
root; a missing or unparseable file yields a fresh empty `<movie>` root. -/
def loadRoot : SidecarContent → Elem
  | .wellFormed root => root
  | _ => { tag := "movie", text := none, attrib := [], children := [] }

/-- `any(child.tag == "tag" and child.text == tag_to_add for child in root)`:
the duplicate check over the root's immediate children.  `child.text` is
`None` for a childless empty element, and `None == str` is false in Python,
hence the comparison with `some tag_to_add`. -/
def tagExists (root : Elem) (tag_to_add : String) : Bool :=
  root.children.any (fun child => child.tag == "tag" && child.text == some tag_to_add)

/-- A fresh `<tag>` child holding the given text. -/
def tagChild (t : String) : Elem :=
  { tag := "tag", text := some t, attrib := [], children := [] }

/-- `ET.SubElement(root, "tag")` followed by setting its text: appends a new
`<tag>` child at the end of the root's children. -/
def insertTag (root : Elem) (t : String) : Elem :=
  { root with children := root.children ++ [tagChild t] }

/-- `update_nfo(nfo_path, tag_to_add, dry_run, debug)` acting on the prior
on-disk state `disk` of the file at `nfo_path`.  Loads (or freshly creates)
the document, returns `false` with no write if the tag is already an
immediate `<tag>` child of the root, otherwise appends the tag and, unless
`dry_run` is set, writes the document back. -/
def update_nfo (disk : SidecarContent) (nfo_path tag_to_add : String)
    (dry_run debug : Bool) : UpdateResult :=
  let root := loadRoot disk
  if tagExists root tag_to_add then
    { changed := false, disk := disk, doc := root
    , msgs := if debug then [Msg.tagAlreadyExists nfo_path tag_to_add] else [] }
  else
    let root' := insertTag root tag_to_add
    if dry_run then
      { changed := true, disk := disk, doc := root'
      , msgs := [Msg.wouldUpdate nfo_path tag_to_add] }
    else
      { changed := true, disk := SidecarContent.wellFormed root', doc := root'
      , msgs := [Msg.updated nfo_path tag_to_add] }

/-- The classification part of `process_video_file`: starting from
`found_lang = False`, scan each stream's title, then the basename of the
file, then the basename of its directory, setting the flag on any pattern
hit. -/
def classifyFile (search_patterns : List String) (streams : List Stream)
    (filepath : String) : Bool :=
  let found1 := streams.foldl
    (fun fl s =>
      if search_patterns.any (fun pat => containsSub (streamTitle s) pat) then true else fl)
    false
  let file_name := basename filepath
  let found2 :=
    if search_patterns.any (fun pat => containsSub file_name pat) then true else found1
  let folder_name := basename (dirname filepath)
  if search_patterns.any (fun pat => containsSub folder_name pat) then true else found2

/-- The observable result of `process_video_file`: the final on-disk sidecar
state, the results of the `update_nfo` calls in order, and the match flag. -/
structure ProcessResult where
  disk : SidecarContent
  updates : List UpdateResult
  found : Bool
deriving Repr

/-- `process_video_file(filepath, dry_run, debug, language)`: select the
profile (`LANGUAGE_CONFIG.get(language, LANGUAGE_CONFIG['de'])`), probe the
file, classify, and on a match run `update_nfo` once per tag of the profile
against `movie.nfo` in the file's directory (`disk` is the prior state of
that sidecar file). -/
def process_video_file (outcome : ProbeOutcome) (filepath : String)
    (dry_run debug : Bool) (language : String) (disk : SidecarContent) :
    ProcessResult :=
  let config := (List.lookup language LANGUAGE_CONFIG).getD deProfile
  let streams := (ffprobe_audio_tracks outcome filepath).1
  let found_lang := classifyFile config.search_patterns streams filepath
  if found_lang then
    let nfo_path := joinPath (dirname filepath) "movie.nfo"
    let final := config.tags_to_add.foldl
      (fun acc t =>
        let r := update_nfo acc.1 nfo_path t dry_run debug
        (r.disk, acc.2 ++ [r]))
      (disk, ([] : List UpdateResult))
    { disk := final.1, updates := final.2, found := true }
  else
    { disk := disk, updates := [], found := false }

/-! ## Helper lemmas -/

/-- Folding the "set the flag on a hit" loop body over a list computes the
disjunction of the initial flag with an existence check. -/
theorem foldl_if_or {α : Type} (q : α → Bool) (l : List α) (b : Bool) :
    l.foldl (fun fl s => if q s then true else fl) b = (b || l.any q) := by
  induction l generalizing b with
  | nil => simp
  | cons x xs ih =>
    rw [List.foldl_cons, ih, List.any_cons]
    by_cases h : q x
    · simp [h]
    · simp [h]

/-- Loading a well-formed sidecar yields its root. -/
theorem loadRoot_wellFormed (r : Elem) :
    loadRoot (SidecarContent.wellFormed r) = r := rfl

/-- After appending a `<tag>` child with text `t`, the duplicate check for
`t` succeeds. -/
theorem tagExists_insertTag (r : Elem) (t : String) :
    tagExists (insertTag r t) t = true := by
  simp [tagExists, insertTag, tagChild, List.any_append]

/-- The sequential flag-setting classifier equals the disjunction of the
three substring checks (stream titles, filename, folder name). -/
theorem classifyFile_eq_or (ps : List String) (streams : List Stream) (fp : String) :
    classifyFile ps streams fp =
      (streams.any (fun s => ps.any (fun pat => containsSub (streamTitle s) pat))
        || ps.any (fun pat => containsSub (basename fp) pat)
        || ps.any (fun pat => containsSub (basename (dirname fp)) pat)) := by
  unfold classifyFile
  rw [foldl_if_or]
  by_cases h1 : ps.any (fun pat => containsSub (basename fp) pat) <;>
    by_cases h2 : ps.any (fun pat => containsSub (basename (dirname fp)) pat) <;>
      simp [h1, h2]

/-! ## Claim theorems -/

/-- C1: Tag insertion into a sidecar document is idempotent.  When the root
already contains an immediate `<tag>` child whose text equals the tag being
inserted, `update_nfo` returns `false`, leaves the on-disk state untouched
and does not mutate the in-memory document; consequently applying
`update_nfo` to the on-disk state it itself produced changes nothing, so
inserting the same tag twice yields the same tag contents as inserting it
once. -/
theorem update_nfo_duplicate_noop (root : Elem) (nfo_path t : String)
    (dry_run debug : Bool) (disk : SidecarContent)
    (h : tagExists root t = true) :
    ((update_nfo (SidecarContent.wellFormed root) nfo_path t dry_run debug).changed = false ∧
     (update_nfo (SidecarContent.wellFormed root) nfo_path t dry_run debug).disk =
       SidecarContent.wellFormed root ∧
     (update_nfo (SidecarContent.wellFormed root) nfo_path t dry_run debug).doc = root) ∧
    (update_nfo (update_nfo disk nfo_path t dry_run debug).disk nfo_path t dry_run debug).disk =
      (update_nfo disk nfo_path t dry_run debug).disk := by
  constructor
  · simp [update_nfo, loadRoot_wellFormed, h]
  · by_cases h2 : tagExists (loadRoot disk) t
    · simp [update_nfo, h2]
    · cases dry_run with
      | true => simp [update_nfo, h2]
      | false => simp [update_nfo, h2, loadRoot_wellFormed, tagExists_insertTag]

/-- Witness for C1 at a concrete sidecar already holding the tag. -/
theorem update_nfo_duplicate_noop_witness :
    tagExists { tag := "movie", text := none, attrib := [], children := [tagChild "German"] }
        "German" = true ∧
    (((update_nfo (SidecarContent.wellFormed
          { tag := "movie", text := none, attrib := [], children := [tagChild "German"] })
          "Movies/Foo/movie.nfo" "German" false false).changed = false ∧
      (update_nfo (SidecarContent.wellFormed
          { tag := "movie", text := none, attrib := [], children := [tagChild "German"] })
          "Movies/Foo/movie.nfo" "German" false false).disk =
        SidecarContent.wellFormed
          { tag := "movie", text := none, attrib := [], children := [tagChild "German"] } ∧
      (update_nfo (SidecarContent.wellFormed
          { tag := "movie", text := none, attrib := [], children := [tagChild "German"] })
          "Movies/Foo/movie.nfo" "German" false false).doc =
        { tag := "movie", text := none, attrib := [], children := [tagChild "German"] }) ∧
     (update_nfo (update_nfo SidecarContent.absent "Movies/Foo/movie.nfo" "German"
          false false).disk "Movies/Foo/movie.nfo" "German" false false).disk =
       (update_nfo SidecarContent.absent "Movies/Foo/movie.nfo" "German" false false).disk) :=
  ⟨by decide,
   update_nfo_duplicate_noop
     { tag := "movie", text := none, attrib := [], children := [tagChild "German"] }
     "Movies/Foo/movie.nfo" "German" false false SidecarContent.absent (by decide)⟩

/-- C2: `update_nfo` returns `true` exactly when an insertion occurred
(real in hot-run or simulated in dry-run) and `false` exactly when the tag
was already an immediate `<tag>` child of the loaded root. -/
theorem update_nfo_changed_iff (disk : SidecarContent) (nfo_path t : String)
    (dry_run debug : Bool) :
    (update_nfo disk nfo_path t dry_run debug).changed =
      !(tagExists (loadRoot disk) t) := by
  by_cases h : tagExists (loadRoot disk) t <;> cases dry_run <;>
    simp [update_nfo, h]

/-- C3: with dry-run enabled `update_nfo` never changes the on-disk sidecar
state, for every prior state and tag, and when an insertion would be
needed it still reports `true` together with the "would update" message. -/
theorem update_nfo_dry_run_no_write (disk : SidecarContent) (nfo_path t : String)
    (debug : Bool) :
    (update_nfo disk nfo_path t true debug).disk = disk ∧
    (tagExists (loadRoot disk) t = false →
      (update_nfo disk nfo_path t true debug).changed = true ∧
      (update_nfo disk nfo_path t true debug).msgs = [Msg.wouldUpdate nfo_path t]) := by
  by_cases h : tagExists (loadRoot disk) t <;> simp [update_nfo, h]

/-- Witness for C3 at a concrete absent sidecar, where the insertion is
simulated but nothing is written. -/
theorem update_nfo_dry_run_no_write_witness :
    ((update_nfo SidecarContent.absent "Movies/Foo/movie.nfo" "German" true false).disk =
       SidecarContent.absent ∧
     ((update_nfo SidecarContent.absent "Movies/Foo/movie.nfo" "German" true false).changed = true ∧
      (update_nfo SidecarContent.absent "Movies/Foo/movie.nfo" "German" true false).msgs =
        [Msg.wouldUpdate "Movies/Foo/movie.nfo" "German"])) ∧
    tagExists (loadRoot SidecarContent.absent) "German" = false :=
  ⟨⟨(update_nfo_dry_run_no_write SidecarContent.absent "Movies/Foo/movie.nfo" "German" false).1,
    (update_nfo_dry_run_no_write SidecarContent.absent "Movies/Foo/movie.nfo" "German" false).2
      (by decide)⟩,
   by decide⟩

/-- C6: on an existing but unparseable sidecar, `update_nfo` (hot run)
discards the content, starts from a fresh empty `<movie>` root and produces
a valid document containing exactly the newly inserted tag; the operation is
total, so nothing is raised to the caller. -/
theorem update_nfo_malformed_recovery (nfo_path t : String) (debug : Bool) :
    update_nfo SidecarContent.unparseable nfo_path t false debug =
      { changed := true
      , disk := SidecarContent.wellFormed
          { tag := "movie", text := none, attrib := [], children := [tagChild t] }
      , doc := { tag := "movie", text := none, attrib := [], children := [tagChild t] }
      , msgs := [Msg.updated nfo_path t] } := by
  rfl

/-- C8: on a well-formed sidecar, `update_nfo` preserves the root's name,
text and attributes, its children are either untouched or extended by
exactly one new `<tag>` child at the end, and the on-disk state is either
the original document or the document with that one child appended; no
existing child is removed or modified. -/
theorem update_nfo_preserves_structure (root : Elem) (nfo_path t : String)
    (dry_run debug : Bool) :
    ((update_nfo (SidecarContent.wellFormed root) nfo_path t dry_run debug).doc.tag = root.tag ∧
     (update_nfo (SidecarContent.wellFormed root) nfo_path t dry_run debug).doc.text = root.text ∧
     (update_nfo (SidecarContent.wellFormed root) nfo_path t dry_run debug).doc.attrib =
       root.attrib) ∧
    ((update_nfo (SidecarContent.wellFormed root) nfo_path t dry_run debug).doc.children =
       root.children ∨
     (update_nfo (SidecarContent.wellFormed root) nfo_path t dry_run debug).doc.children =
       root.children ++ [tagChild t]) ∧
    ((update_nfo (SidecarContent.wellFormed root) nfo_path t dry_run debug).disk =
       SidecarContent.wellFormed root ∨
     (update_nfo (SidecarContent.wellFormed root) nfo_path t dry_run debug).disk =
       SidecarContent.wellFormed (insertTag root t)) := by
  by_cases h : tagExists root t <;> cases dry_run <;>
    simp [update_nfo, loadRoot, insertTag, h]

/-- C4: the classifier's decision is the logical OR of case-sensitive exact
substring containment checks over every stream title, the filename and the
folder name; and a stream with no title tag carries the empty title, which
none of the `'de'` profile patterns can match (the classifier is a total
function, so such a stream never causes an error). -/
theorem classifyFile_or_of_substring_checks (ps : List String)
    (streams : List Stream) (fp : String) :
    (classifyFile ps streams fp =
      (streams.any (fun s => ps.any (fun pat => containsSub (streamTitle s) pat))
        || ps.any (fun pat => containsSub (basename fp) pat)
        || ps.any (fun pat => containsSub (basename (dirname fp)) pat))) ∧
    ∀ i : Option Int,
      deProfile.search_patterns.any
        (fun pat => containsSub (streamTitle { index := i, tags_title := none }) pat) = false :=
  ⟨classifyFile_eq_or ps streams fp, fun _ => rfl⟩

/-- C5: with the probe failing (yielding no streams), the file
`Movies/Foo/Movie.DE.mkv` with language `de` matches via the filename
substring `DE`; the updater runs once per configured tag against
`Movies/Foo/movie.nfo` and the resulting sidecar holds exactly the `<tag>`
children `German` and `Deutsch`. -/
theorem scenario_movie_de_filename_fallback :
    containsSub (basename "Movies/Foo/Movie.DE.mkv") "DE" = true ∧
    classifyFile deProfile.search_patterns [] "Movies/Foo/Movie.DE.mkv" = true ∧
    joinPath (dirname "Movies/Foo/Movie.DE.mkv") "movie.nfo" = "Movies/Foo/movie.nfo" ∧
    (process_video_file ProbeOutcome.nonZeroExit "Movies/Foo/Movie.DE.mkv" false false "de"
        SidecarContent.absent).found = true ∧
    (process_video_file ProbeOutcome.nonZeroExit "Movies/Foo/Movie.DE.mkv" false false "de"
        SidecarContent.absent).updates.length = 2 ∧
    (process_video_file ProbeOutcome.nonZeroExit "Movies/Foo/Movie.DE.mkv" false false "de"
        SidecarContent.absent).disk =
      SidecarContent.wellFormed
        { tag := "movie", text := none, attrib := []
        , children := [tagChild "German", tagChild "Deutsch"] } :=
  ⟨rfl, rfl, rfl, rfl, rfl, rfl⟩

/-- C7: on each of the three failure modes of the external probe (tool
missing, non-zero exit, unparseable output), `ffprobe_audio_tracks` returns
the empty stream sequence together with exactly one stderr diagnostic; it
is a total function, so no exception reaches the caller. -/
theorem ffprobe_failure_returns_empty (outcome : ProbeOutcome) (fp : String)
    (h : outcome.isFailure = true) :
    (ffprobe_audio_tracks outcome fp).1 = [] ∧
    (ffprobe_audio_tracks outcome fp).2.length = 1 := by
  cases outcome <;> simp_all [ffprobe_audio_tracks, ProbeOutcome.isFailure]

/-- Witness for C7 at the tool-missing failure mode. -/
theorem ffprobe_failure_returns_empty_witness :
    ProbeOutcome.toolMissing.isFailure = true ∧
    ((ffprobe_audio_tracks ProbeOutcome.toolMissing "Movies/Foo/Movie.DE.mkv").1 = [] ∧
     (ffprobe_audio_tracks ProbeOutcome.toolMissing "Movies/Foo/Movie.DE.mkv").2.length = 1) :=
  ⟨rfl, ffprobe_failure_returns_empty ProbeOutcome.toolMissing "Movies/Foo/Movie.DE.mkv" rfl⟩

/-- C9: for a language key absent from `LANGUAGE_CONFIG`,
`process_video_file` silently uses the `'de'` profile: its behaviour is
identical to running with language `de`. -/
theorem unknown_language_falls_back_to_de (language : String)
    (outcome : ProbeOutcome) (fp : String) (dry_run debug : Bool)
    (disk : SidecarContent)
    (h : List.lookup language LANGUAGE_CONFIG = none) :
    process_video_file outcome fp dry_run debug language disk =
      process_video_file outcome fp dry_run debug "de" disk := by
  simp only [process_video_file, h]
  rfl

/-- Witness for C9 at the unknown key `fr`. -/
theorem unknown_language_falls_back_to_de_witness :
    List.lookup "fr" LANGUAGE_CONFIG = none ∧
    process_video_file (ProbeOutcome.parsed []) "Movies/Foo/Movie.DE.mkv" true false "fr"
        SidecarContent.absent =
      process_video_file (ProbeOutcome.parsed []) "Movies/Foo/Movie.DE.mkv" true false "de"
        SidecarContent.absent :=
  ⟨rfl, unknown_language_falls_back_to_de "fr" (ProbeOutcome.parsed [])
    "Movies/Foo/Movie.DE.mkv" true false SidecarContent.absent rfl⟩

/-- C10: folder matching looks only at the basename of the file's immediate
parent directory: whenever no pattern occurs in the filename's basename, in
the parent directory's basename, or in any stream title, the classifier is
negative — whatever patterns occur higher up in the path. -/
theorem ancestor_pattern_no_match (streams : List Stream) (fp : String)
    (h1 : deProfile.search_patterns.any
      (fun pat => containsSub (basename fp) pat) = false)
    (h2 : deProfile.search_patterns.any
      (fun pat => containsSub (basename (dirname fp)) pat) = false)
    (h3 : streams.any (fun s => deProfile.search_patterns.any
      (fun pat => containsSub (streamTitle s) pat)) = false) :
    classifyFile deProfile.search_patterns streams fp = false := by
  rw [classifyFile_eq_or, h1, h2, h3]
  rfl

/-- Witness for C10: the ancestor folder `German` contains a pattern, yet
the file `German/Foo/movie.mkv` does not match. -/
theorem ancestor_pattern_no_match_witness :
    containsSub (dirname (dirname "German/Foo/movie.mkv")) "German" = true ∧
    deProfile.search_patterns.any
      (fun pat => containsSub (basename "German/Foo/movie.mkv") pat) = false ∧
    deProfile.search_patterns.any
      (fun pat => containsSub (basename (dirname "German/Foo/movie.mkv")) pat) = false ∧
    ([] : List Stream).any (fun s => deProfile.search_patterns.any
      (fun pat => containsSub (streamTitle s) pat)) = false ∧
    classifyFile deProfile.search_patterns [] "German/Foo/movie.mkv" = false :=
  ⟨by decide, by decide, by decide, rfl,
   ancestor_pattern_no_match [] "German/Foo/movie.mkv" (by decide) (by decide) rfl⟩

end TagMedia
